import Mathlib

/-!
Verification development for the jellycli terminal UI core
(`ui/widgets` package: `Window` navigation controller, modal overlay
management, the `Help` modal, search aggregation, and the `ui.Gui`
asynchronous update bridge).

The Go source is shallowly embedded: each mutating method on `Window`
becomes a pure function from the window state (plus the results the
external collaborators would return) to the new window state, paired
with the log messages and external effects the method emits.
-/

namespace Jellycli

/-- Fetch errors from the item collaborator, kept as their message text. -/
abbrev Err := String

/-- Log lines emitted through the logger. -/
abbrev LogMsg := String

/-- Modelled from the spec: `interfaces.Paging` (the `interfaces` package is
not under `src/`). Per §3 of the spec: `offset = current_page * page_size`
and `total_pages = ceil(total_items / page_size)`. -/
structure Paging where
  currentPage : Nat
  pageSize : Nat
  totalItems : Nat
  totalPages : Nat
deriving DecidableEq

/-- Modelled from the spec: `interfaces.DefaultPaging()`; a fresh paging
value on page 0. The concrete page size is not fixed by the spec; the
claims do not depend on it. -/
def DefaultPaging : Paging :=
  { currentPage := 0, pageSize := 100, totalItems := 0, totalPages := 0 }

/-- Modelled from the spec: `Paging.SetTotalItems` stores the total and
derives `total_pages = ceil(total_items / page_size)`. -/
def Paging.setTotalItems (p : Paging) (n : Nat) : Paging :=
  { p with totalItems := n, totalPages := (n + p.pageSize - 1) / p.pageSize }

/-- Modelled from the spec: `models.Artist` (the `models` package is not
under `src/`); a plain data carrier with the fields the widgets read. -/
structure Artist where
  id : String
  name : String
  totalDuration : Nat
  albumCount : Nat
  favorite : Bool
deriving DecidableEq

/-- Modelled from the spec: `models.Album` data carrier. -/
structure Album where
  id : String
  name : String
  year : Nat
  duration : Nat
  artist : String
deriving DecidableEq

/-- Modelled from the spec: `models.Song` data carrier. -/
structure Song where
  id : String
  name : String
  duration : Nat
  albumArtist : String
deriving DecidableEq

/-- Modelled from the spec: `models.Playlist` data carrier. -/
structure Playlist where
  id : String
  name : String
  songs : List Song
  duration : Nat
deriving DecidableEq

/-- Modelled from the spec: `models.IdName` (genres). -/
structure IdName where
  id : String
  name : String
deriving DecidableEq

/-- Modelled from the spec: `models.ItemType`, the searchable item kinds. -/
inductive ItemType
  | artist
  | album
  | song
  | playlist
  | genre
deriving DecidableEq

/-- Modelled from the spec: an opaque `models.Item` search result. -/
structure Item where
  id : Nat
deriving DecidableEq

/-- The pre-allocated screens (`Previous` widgets) owned by `Window`.
They are created once in `NewWindow` and reused across navigations. -/
inductive Screen
  | artistList
  | albumList
  | similarAlbums
  | album
  | latestAlbums
  | favoriteAlbums
  | playlists
  | playlistView
  | songs
  | genres
  | searchResultsTop
  | queue
  | history
deriving DecidableEq

/-- The two modal widgets `Window` owns (`w.help`, `w.message`). -/
inductive MW
  | help
  | message
deriving DecidableEq

/-- What `cview.Application` focus can point at in this core. -/
inductive Focus
  | screen (s : Screen)
  | mediaNav
  | modalF (m : MW)
  | layoutRoot
deriving DecidableEq

/-- The media bar entries (`MediaSelect` in `medianav` widget source). -/
inductive MediaSelect
  | latestMusic
  | recent
  | artists
  | albumArtists
  | albums
  | songs
  | playlists
  | favoriteArtists
  | favoriteAlbums
  | genres
deriving DecidableEq

/-- Which page-fetch callback `w.songs.showPage` currently points at. -/
inductive SongsPageKind
  | allSongs
  | recent
deriving DecidableEq

/-- State of an `AlbumList` banner widget (from `albumlist` source):
the album slice, the header text, and the mode flags toggled by
`EnablePaging` / `EnableSimilar` / `EnableArtistMode`. -/
structure AlbumListState where
  albums : List Album
  text : String
  pagingEnabled : Bool
  similarEnabled : Bool
  artistMode : Bool
  artist : Option Artist
  page : Paging
deriving DecidableEq

/-- `AlbumList.Clear`: empties the list and the cover cache. -/
def AlbumListState.clear (a : AlbumListState) : AlbumListState :=
  { a with albums := [] }

/-- `AlbumList.SetAlbums`: replaces the album slice (the widget first
clears its visual list, then rebuilds the covers). -/
def AlbumListState.setAlbums (a : AlbumListState) (l : List Album) : AlbumListState :=
  { a with albums := l }

/-- `AlbumList.SetText` / `SetLabel`: both write the name text view. -/
def AlbumListState.setText (a : AlbumListState) (t : String) : AlbumListState :=
  { a with text := t }

/-- `AlbumList.SetArtist`. -/
def AlbumListState.setArtist (a : AlbumListState) (ar : Option Artist) : AlbumListState :=
  { a with artist := ar }

/-- `AlbumList.EnablePaging`: returns early when the flag already has the
requested value (the early return only skips re-laying-out buttons,
which are not part of this model). -/
def AlbumListState.enablePaging (a : AlbumListState) (b : Bool) : AlbumListState :=
  if a.pagingEnabled = b then a else { a with pagingEnabled := b }

/-- `AlbumList.EnableSimilar`. -/
def AlbumListState.enableSimilar (a : AlbumListState) (b : Bool) : AlbumListState :=
  { a with similarEnabled := b }

/-- `AlbumList.EnableArtistMode`. -/
def AlbumListState.enableArtistMode (a : AlbumListState) (b : Bool) : AlbumListState :=
  { a with artistMode := b }

/-- `AlbumList.SetPage`. -/
def AlbumListState.setPage (a : AlbumListState) (p : Paging) : AlbumListState :=
  { a with page := p }

/-- Modelled from the spec: the `ArtistList` widget (its source file is
not under `src/`); per §4.1 the paged list supports clear / add /
replace plus a header text and a paging toggle. -/
structure ArtistListState where
  artists : List Artist
  text : String
  pagingEnabled : Bool
  page : Paging
deriving DecidableEq

/-- Modelled from the spec: `ArtistList.Clear` empties the list. -/
def ArtistListState.clear (a : ArtistListState) : ArtistListState :=
  { a with artists := [] }

/-- Modelled from the spec: `ArtistList.AddArtists` appends to the list. -/
def ArtistListState.addArtists (a : ArtistListState) (l : List Artist) : ArtistListState :=
  { a with artists := a.artists ++ l }

/-- Modelled from the spec: `ArtistList.SetText`. -/
def ArtistListState.setText (a : ArtistListState) (t : String) : ArtistListState :=
  { a with text := t }

/-- Modelled from the spec: `ArtistList.EnablePaging`. -/
def ArtistListState.enablePaging (a : ArtistListState) (b : Bool) : ArtistListState :=
  { a with pagingEnabled := b }

/-- Modelled from the spec: `ArtistList.SetPage`. -/
def ArtistListState.setPage (a : ArtistListState) (p : Paging) : ArtistListState :=
  { a with page := p }

/-- Modelled from the spec: the `SongList` widget state; `SetSongs`
replaces both the song slice and the page shown. -/
structure SongListState where
  songs : List Song
  page : Paging
  title : String
  showPage : SongsPageKind
deriving DecidableEq

/-- Modelled from the spec: `SongList.SetSongs` replaces songs and page. -/
def SongListState.setSongs (s : SongListState) (l : List Song) (p : Paging) : SongListState :=
  { s with songs := l, page := p }

/-- Modelled from the spec: the `GenreList` widget state. -/
structure GenreListState where
  genres : List IdName
  page : Paging
deriving DecidableEq

/-- Modelled from the spec: the `AlbumView` widget state; `SetAlbum`
stores the album and its songs, `SetArtist` the album artist. -/
structure AlbumViewState where
  album : Option Album
  songs : List Song
  artist : Option Artist
deriving DecidableEq

/-- The result shape of the Go collaborator calls: a value slice plus an
optional error, mirroring Go's multiple return values (the value is
present, typically zero, even when the error is set). -/
structure FRes (α : Type) where
  val : α
  err : Option Err
deriving DecidableEq

/-- The external item collaborator (`interfaces.ItemController`) as the
window consumes it: one field per fetch the navigation code performs.
Each field holds the result that call would return. -/
structure Fetcher where
  getLatestAlbums : FRes (List Album)
  getFavoriteArtists : FRes (List Artist)
  getPlaylists : FRes (List Playlist)
  getSongs : Nat → Nat → FRes (List Song × Nat)
  getRecentlyPlayed : Paging → FRes (List Song × Nat)
  getArtists : Paging → FRes (List Artist × Nat)
  getAlbumArtists : Paging → FRes (List Artist × Nat)
  getAlbums : Paging → FRes (List Album × Nat)
  getFavoriteAlbums : Paging → FRes (List Album × Nat)
  getGenres : Paging → FRes (List IdName × Nat)
  getGenreAlbums : IdName → FRes (List Album)
  getArtistAlbums : String → FRes (List Album)
  getAlbumSongs : String → FRes (List Song)
  getAlbumArtist : Album → FRes Artist
  getPlaylistSongs : Playlist → FRes (List Song)
  search : ItemType → String → FRes (List Item)

/-- The `Window` state: the navigation controller's mutable fields
(`mediaView`, per-screen `previous` pointers, focus bookkeeping, modal
bookkeeping) together with the per-screen content state the navigation
methods write. -/
structure Window where
  mediaView : Screen
  prev : Screen → Option Screen
  focus : Option Focus
  lastFocus : Option Focus
  mediaViewSelected : Bool
  hasModal : Bool
  modalW : Option MW
  layoutModal : Option (MW × Bool)
  visibleM : MW → Bool
  artistListS : ArtistListState
  albumListS : AlbumListState
  similarAlbumsS : AlbumListState
  latestAlbumsS : AlbumListState
  favoriteAlbumsS : AlbumListState
  albumS : AlbumViewState
  playlistsS : List Playlist
  playlistS : Option Playlist
  songsS : SongListState
  genresS : GenreListState
  searchS : List (ItemType × List Item)
  navCounts : MediaSelect → Option Nat
  volume : Int

/-- `MediaNavigation.SetCount`. -/
def Window.setCount (w : Window) (m : MediaSelect) (n : Nat) : Window :=
  { w with navCounts := fun x => if x = m then some n else w.navCounts x }

/-- `Window.setViewWidget`: no-op when the widget is already the media
view; otherwise swaps the grid's central widget, records the previous
focus, focuses the new widget, and, when `updatePrevious` is set, stores
the old media view as the new widget's back pointer (`p.SetLast(last)`). -/
def Window.setViewWidget (w : Window) (p : Screen) (updatePrevious : Bool) : Window :=
  if p = w.mediaView then w
  else
    let last := w.mediaView
    { w with
      lastFocus := w.focus
      focus := some (Focus.screen p)
      mediaView := p
      prev := if updatePrevious then
          fun s => if s = p then some last else w.prev s
        else w.prev }

/-- `Window.goBack`: navigate to the given previous widget without
touching back pointers. -/
def Window.goBack (w : Window) (p : Screen) : Window :=
  w.setViewWidget p false

/-- Modelled from the spec: the back operation as a whole. The widgets'
`previous` helper struct (which stores the back pointer and invokes the
back callback with it) is not under `src/`; per §4.4 of the spec, "back"
follows the current screen's `previous` link and is a no-op when none
exists. The dispatch into `Window.goBack` is the `src` code. -/
def Window.backOp (w : Window) : Window :=
  match w.prev w.mediaView with
  | some p => w.goBack p
  | none => w

/-- `Window.closeModal`: when a modal is open, hides it, removes it from
the layout, restores the captured focus and clears the modal state;
otherwise only logs a warning. -/
def Window.closeModal (w : Window) (m : MW) : Window × List LogMsg :=
  if w.hasModal then
    ({ w with
        visibleM := fun x => if x = m then false else w.visibleM x
        layoutModal := match w.layoutModal with
          | some (m', k) => if m' = m then none else some (m', k)
          | none => none
        hasModal := false
        modalW := none
        focus := w.lastFocus
        lastFocus := none }, [])
  else
    (w, ["Trying to close modal when there's no open modal."])

/-- `Window.showModal`: when no modal is open, records the modal,
captures and blurs the current focus, adds the modal to the layout
(fixed-size unless `lockSize`), focuses it and marks it visible;
otherwise only logs a warning. -/
def Window.showModal (w : Window) (m : MW) (_height _width : Nat) (lockSize : Bool) :
    Window × List LogMsg :=
  if w.hasModal then
    (w, ["Trying show close modal when there's another modal open."])
  else
    ({ w with
        hasModal := true
        modalW := some m
        lastFocus := w.focus
        layoutModal := some (m, lockSize)
        focus := some (Focus.modalF m)
        visibleM := fun x => if x = m then true else w.visibleM x }, [])

/-- `Window.showGenrePage`: fetch a genre page; on error log and return,
otherwise store page and genres and navigate to the genre screen. -/
def Window.showGenrePage (f : Fetcher) (w : Window) (paging : Paging) :
    Window × List LogMsg :=
  let r := f.getGenres paging
  match r.err with
  | some e => (w, ["get genres: " ++ e])
  | none =>
    let paging := paging.setTotalItems r.val.snd
    let w := { w with genresS := { genres := r.val.fst, page := paging } }
    (w.setViewWidget Screen.genres true, [])

/-- `Window.selectMedia`: media-bar category selection. Each case fetches
from the item collaborator and populates / shows the target screen; the
error handling follows the source case by case (most cases abort, the
songs cases fall through, the album cases toggle paging before the
error check). `limitRecentlyPlayed` mirrors `config.LimitRecentlyPlayed`. -/
def Window.selectMedia (f : Fetcher) (w : Window) (m : MediaSelect)
    (limitRecentlyPlayed : Bool) : Window × List LogMsg :=
  match m with
  | MediaSelect.latestMusic =>
    let r := f.getLatestAlbums
    match r.err with
    | some e => (w, ["get favorite artists: " ++ e])
    | none =>
      let albums := r.val
      let duration := albums.foldl (fun d a => d + a.duration) 0
      let artist : Artist :=
        { id := "", name := "Latest albums", totalDuration := duration,
          albumCount := albums.length, favorite := false }
      let w := w.setCount MediaSelect.latestMusic albums.length
      let w := { w with latestAlbumsS :=
        ((w.latestAlbumsS.clear.setAlbums albums).setArtist (some artist)) }
      (w.setViewWidget Screen.latestAlbums true, [])
  | MediaSelect.favoriteArtists =>
    let r := f.getFavoriteArtists
    match r.err with
    | some e => (w, ["get favorite artists: " ++ e])
    | none =>
      let artists := r.val
      let w := { w with artistListS :=
        (w.artistListS.clear.setText "Favorite artists").enablePaging false }
      let w := w.setCount MediaSelect.favoriteArtists artists.length
      let w := { w with artistListS := w.artistListS.addArtists artists }
      (w.setViewWidget Screen.artistList true, [])
  | MediaSelect.playlists =>
    let r := f.getPlaylists
    match r.err with
    | some e => (w, ["get playlists: " ++ e])
    | none =>
      let w := w.setCount MediaSelect.playlists r.val.length
      let w := { w with playlistsS := r.val }
      (w.setViewWidget Screen.playlists true, [])
  | MediaSelect.songs =>
    let page := DefaultPaging
    let r := f.getSongs 0 page.pageSize
    let songs := r.val.fst
    let count := r.val.snd
    match r.err with
    | some e =>
      let page := page.setTotalItems count
      let w := { w with songsS := w.songsS.setSongs songs page }
      (w.setViewWidget Screen.songs true, ["get songs: " ++ e])
    | none =>
      let w := { w with songsS := { w.songsS with showPage := SongsPageKind.allSongs } }
      let w := w.setCount MediaSelect.songs count
      let w := { w with songsS := { w.songsS with title := "All albums" } }
      let page := page.setTotalItems count
      let w := { w with songsS := w.songsS.setSongs songs page }
      (w.setViewWidget Screen.songs true, [])
  | MediaSelect.recent =>
    let page := DefaultPaging
    let r := f.getRecentlyPlayed page
    let songs := r.val.fst
    let count := r.val.snd
    match r.err with
    | some e =>
      let page := page.setTotalItems count
      let w := { w with songsS := w.songsS.setSongs songs page }
      (w.setViewWidget Screen.songs true, ["get songs: " ++ e])
    | none =>
      let w := { w with songsS := { w.songsS with
        showPage := SongsPageKind.recent, title := "Recently played" } }
      let w := if limitRecentlyPlayed then w else w.setCount MediaSelect.recent count
      let page := page.setTotalItems count
      let w := { w with songsS := w.songsS.setSongs songs page }
      (w.setViewWidget Screen.songs true, [])
  | MediaSelect.artists =>
    let paging := DefaultPaging
    let r := f.getArtists paging
    match r.err with
    | some e => (w, ["get all artists: " ++ e])
    | none =>
      let paging := paging.setTotalItems r.val.snd
      let w := w.setCount MediaSelect.artists r.val.snd
      let w := { w with artistListS :=
        ((w.artistListS.clear.enablePaging true).setPage paging).addArtists r.val.fst }
      let w := w.setViewWidget Screen.artistList true
      let w := { w with artistListS :=
        w.artistListS.setText ("All artists: " ++ toString paging.totalItems) }
      (w, [])
  | MediaSelect.albumArtists =>
    let paging := DefaultPaging
    let r := f.getAlbumArtists paging
    match r.err with
    | some e => (w, ["get all artists: " ++ e])
    | none =>
      let paging := paging.setTotalItems r.val.snd
      let w := w.setCount MediaSelect.albumArtists r.val.snd
      let w := { w with artistListS :=
        ((w.artistListS.clear.enablePaging true).setPage paging).addArtists r.val.fst }
      let w := w.setViewWidget Screen.artistList true
      let w := { w with artistListS :=
        w.artistListS.setText ("All album artists: " ++ toString paging.totalItems) }
      (w, [])
  | MediaSelect.albums =>
    let paging := DefaultPaging
    let r := f.getAlbums paging
    let w := { w with albumListS := w.albumListS.enablePaging true }
    match r.err with
    | some e => (w, ["get All Albums: " ++ e])
    | none =>
      let paging := paging.setTotalItems r.val.snd
      let w := w.setCount MediaSelect.albums r.val.snd
      let w := { w with
        albumListS := w.albumListS.setPage paging |>.clear |>.enableSimilar false
          |>.enableArtistMode false
          |>.setText ("All Albums\nTotal " ++ toString paging.totalItems)
          |>.setAlbums r.val.fst }
      (w.setViewWidget Screen.albumList true, [])
  | MediaSelect.favoriteAlbums =>
    let paging := { DefaultPaging with pageSize := 200 }
    let r := f.getFavoriteAlbums paging
    let w := { w with albumListS := w.albumListS.enablePaging false }
    match r.err with
    | some e => (w, ["get Favorite albums: " ++ e])
    | none =>
      let paging := paging.setTotalItems r.val.snd
      let w := w.setCount MediaSelect.favoriteAlbums r.val.snd
      let w := { w with
        favoriteAlbumsS := w.favoriteAlbumsS.setPage paging |>.clear
          |>.enableSimilar false |>.enableArtistMode false
          |>.setText ("Favorite albums\nTotal " ++ toString paging.totalItems)
          |>.setAlbums r.val.fst }
      (w.setViewWidget Screen.favoriteAlbums true, [])
  | MediaSelect.genres =>
    w.showGenrePage f DefaultPaging

/-- `Window.selectArtist`: drill into an artist; on fetch error log and
abort, otherwise repopulate the album list and show it. -/
def Window.selectArtist (f : Fetcher) (w : Window) (artist : Artist) :
    Window × List LogMsg :=
  let r := f.getArtistAlbums artist.id
  match r.err with
  | some e => (w, ["get albumList albums: " ++ e])
  | none =>
    let albums := r.val
    let artist := { artist with albumCount := albums.length }
    let w := { w with albumListS :=
      (((((w.albumListS.clear.enableArtistMode true).enablePaging false).enableSimilar
        true).setArtist (some artist)).setAlbums albums) }
    (w.setViewWidget Screen.albumList true, [])

/-- `Window.selectAlbum`: drill into an album. A song-fetch error logs
and aborts; an album-artist-fetch error only logs, and the navigation
still proceeds with the fetched songs. `album.SetLast(w.mediaView)` is
the explicit back-pointer write before `setViewWidget`. -/
def Window.selectAlbum (f : Fetcher) (w : Window) (album : Album) :
    Window × List LogMsg :=
  let r := f.getAlbumSongs album.id
  match r.err with
  | some e => (w, ["get album songs: " ++ e])
  | none =>
    let songs := r.val.map (fun s => { s with albumArtist := album.artist })
    let r2 := f.getAlbumArtist album
    let wl := match r2.err with
      | some e => (w, ["get album artist: " ++ e])
      | none => ({ w with albumS := { w.albumS with artist := some r2.val } },
          ([] : List LogMsg))
    let w := wl.fst
    let w := { w with albumS := { w.albumS with album := some album, songs := songs } }
    let w := { w with prev := fun s =>
      if s = Screen.album then some w.mediaView else w.prev s }
    (w.setViewWidget Screen.album true, wl.snd)

/-- `Window.selectPlaylist`: drill into a playlist; on fetch error log a
warning and abort, otherwise show the playlist with its songs filled. -/
def Window.selectPlaylist (f : Fetcher) (w : Window) (playlist : Playlist) :
    Window × List LogMsg :=
  let r := f.getPlaylistSongs playlist
  match r.err with
  | some e => (w, ["did not get playlist songs: " ++ e])
  | none =>
    let playlist := { playlist with songs := r.val }
    let w := { w with playlistS := some playlist }
    (w.setViewWidget Screen.playlistView true, [])

/-- `Window.selectGenre`: drill into a genre; on error log and abort. -/
def Window.selectGenre (f : Fetcher) (w : Window) (id : IdName) :
    Window × List LogMsg :=
  let r := f.getGenreAlbums id
  match r.err with
  | some e => (w, ["get genre albums: " ++ e])
  | none =>
    let w := { w with albumListS :=
      (((((w.albumListS.clear.enablePaging false).enableSimilar false).enableArtistMode
        false).setAlbums r.val).setText ("Genre " ++ id.name)) }
    (w.setViewWidget Screen.albumList true, [])

/-- `Window.selectSongs` (the all-songs page callback): on fetch error it
logs but does not return — the (typically empty) result is still applied
and the songs screen is still pushed. -/
def Window.selectSongs (f : Fetcher) (w : Window) (page : Paging) :
    Window × List LogMsg :=
  let r := f.getSongs page.currentPage page.pageSize
  let logs := match r.err with
    | some e => ["get songs: " ++ e]
    | none => []
  let w := { w with songsS := w.songsS.setSongs r.val.fst page }
  (w.setViewWidget Screen.songs true, logs)

/-- `Window.showRecentSongsPage`: same fall-through on error as
`selectSongs`. -/
def Window.showRecentSongsPage (f : Fetcher) (w : Window) (page : Paging) :
    Window × List LogMsg :=
  let r := f.getRecentlyPlayed page
  let logs := match r.err with
    | some e => ["get songs: " ++ e]
    | none => []
  let w := { w with songsS := w.songsS.setSongs r.val.fst page }
  (w.setViewWidget Screen.songs true, logs)

/-- `Window.showArtistPage`: on error log and abort; on success
repopulate the artist list and show it without touching back pointers
(`setViewWidget` with `updatePrevious = false`). -/
def Window.showArtistPage (f : Fetcher) (w : Window) (page : Paging) :
    Window × List LogMsg :=
  let r := f.getArtists page
  match r.err with
  | some e => (w, ["get albumList page: " ++ e])
  | none =>
    let w := { w with artistListS :=
      (w.artistListS.clear.addArtists r.val.fst).enablePaging true }
    (w.setViewWidget Screen.artistList false, [])

/-- `Window.showAlbumPage`: on error log and abort; on success
repopulate the album list in place (no `setViewWidget` call). -/
def Window.showAlbumPage (f : Fetcher) (w : Window) (page : Paging) :
    Window × List LogMsg :=
  let r := f.getAlbums page
  match r.err with
  | some e => (w, ["get all albums: " ++ e])
  | none =>
    let page := page.setTotalItems r.val.snd
    let w := w.setCount MediaSelect.albums r.val.snd
    let w := { w with albumListS :=
      ((w.albumListS.setPage page).clear.enablePaging true).setAlbums r.val.fst }
    (w, [])

/-- External calls the window makes on collaborators other than the
item fetches, including the player commands from `mediaCtrl`. The
volume command carries its own constructor because the source
dispatches it on a fresh goroutine (`go w.mediaPlayer.SetVolume(...)`),
fire-and-forget. -/
inductive Effect
  | playerStopMedia
  | queueClear (stopPlayback : Bool)
  | playerPlayPause
  | playerSetVolumeAsync (v : Int)
  | playerNext
  | playerPrevious
  | playerSeek (ticks : Int)
  | appStop
  | fetchStats
  | fetchHistory (n : Nat)
  | searchFetch (t : ItemType) (q : String)
deriving DecidableEq

/-- Whether the effect is dispatched asynchronously (on its own
goroutine) rather than inline in the input loop. -/
def Effect.isAsync : Effect → Bool
  | Effect.playerSetVolumeAsync _ => true
  | _ => false

/-- Printed name of an item type in the search error log line. -/
def ItemType.goName : ItemType → String
  | ItemType.artist => "Artist"
  | ItemType.album => "Album"
  | ItemType.song => "Song"
  | ItemType.playlist => "Playlist"
  | ItemType.genre => "Genre"

/-- Result of `Window.searchCb`: the new window state plus the logs and
the external fetches it performed. -/
structure SearchOut where
  window : Window
  logs : List LogMsg
  effs : List Effect

/-- One iteration of the `searchCb` loop body: fetch the type's results;
on success with a non-empty slice append them to the results screen, on
error only log. -/
def searchStep (f : Fetcher) (query : String) (o : SearchOut) (t : ItemType) :
    SearchOut :=
  let res := f.search t query
  let o := { o with effs := o.effs ++ [Effect.searchFetch t query] }
  match res.err with
  | none =>
    if res.val.length > 0 then
      { o with window := { o.window with searchS := o.window.searchS ++ [(t, res.val)] } }
    else o
  | some e =>
    { o with logs := o.logs ++ ["search items of type " ++ t.goName ++ ": " ++ e] }

/-- `Window.searchCb`: log the debug line, clear the aggregated results,
then run one fetch per configured searchable type in order. -/
def Window.searchCb (f : Fetcher) (types : List ItemType) (w : Window)
    (query : String) : SearchOut :=
  types.foldl (searchStep f query)
    ⟨{ w with searchS := [] }, ["In search callback"], []⟩

/-- Terminal key codes, as in tcell. -/
abbrev Key := Nat

/-- `tcell.KeyTAB`. -/
def keyTAB : Key := 9

/-- `tcell.KeyEscape`. -/
def keyEscape : Key := 27

/-- `tcell.KeyLeft`. -/
def keyLeft : Key := 260

/-- `tcell.KeyRight`. -/
def keyRight : Key := 259

/-- `config.KeyBinds.Global`: the configured global playback keys. -/
structure GlobalBinds where
  stop : Key
  playPause : Key
  volumeDown : Key
  volumeUp : Key
  next : Key
  previous : Key
  forward : Key
  backward : Key
deriving DecidableEq

/-- `config.KeyBinds.NavigationBar`. -/
structure NavBarBinds where
  quit : Key
  help : Key
  search : Key
  queue : Key
  history : Key
deriving DecidableEq

/-- The configured key bindings the handlers consult. -/
structure KeyBinds where
  global : GlobalBinds
  navBar : NavBarBinds
deriving DecidableEq

/-- `Window.mediaCtrl`: the global playback-key switch. A match returns
the player (and queue) commands to dispatch; `none` mirrors the `default`
branch returning `false`. The cases are tested in source order. -/
def Window.mediaCtrl (w : Window) (g : GlobalBinds) (key : Key) :
    Option (List Effect) :=
  if key = g.stop then some [Effect.playerStopMedia, Effect.queueClear true]
  else if key = g.playPause then some [Effect.playerPlayPause]
  else if key = g.volumeDown then some [Effect.playerSetVolumeAsync (w.volume - 5)]
  else if key = g.volumeUp then some [Effect.playerSetVolumeAsync (w.volume + 5)]
  else if key = g.next then some [Effect.playerNext]
  else if key = g.previous then some [Effect.playerPrevious]
  else if key = g.forward then some [Effect.playerSeek 3000]
  else if key = g.backward then some [Effect.playerSeek (-3000)]
  else none

/-- `Window.navBarCtrl`: the navigation-bar key switch. -/
def Window.navBarCtrl (w : Window) (nb : NavBarBinds) (key : Key) :
    Option (Window × List Effect × List LogMsg) :=
  if key = nb.quit then some (w, [Effect.appStop], [])
  else if key = nb.help then
    let wl := w.showModal MW.help 25 50 true
    some (wl.fst, [Effect.fetchStats], wl.snd)
  else if key = nb.search then
    let w := { w with searchS := [] }
    some (w.setViewWidget Screen.searchResultsTop true, [], [])
  else if key = nb.queue then
    let wl := if w.focus = some (Focus.modalF MW.help) then w.closeModal MW.help
      else (w, [])
    some (wl.fst.setViewWidget Screen.queue true, [], wl.snd)
  else if key = nb.history then
    let wl := if w.focus = some (Focus.modalF MW.help) then w.closeModal MW.help
      else (w, [])
    some (wl.fst.setViewWidget Screen.history true, [Effect.fetchHistory 100], wl.snd)
  else none

/-- `Window.moveCtrl`: the Tab toggle between the media bar and the
content screen; an open modal is closed first. -/
def Window.moveCtrl (w : Window) (key : Key) : Option (Window × List LogMsg) :=
  if key = keyTAB then
    let wl :=
      if w.hasModal then
        match w.modalW with
        | some m => w.closeModal m
        | none => (w, [])
      else (w, [])
    let w := wl.fst
    if w.mediaViewSelected then
      some ({ w with
        lastFocus := some (Focus.screen w.mediaView)
        focus := some Focus.mediaNav
        mediaViewSelected := false }, wl.snd)
    else
      some ({ w with
        lastFocus := w.focus
        focus := some (Focus.screen w.mediaView)
        mediaViewSelected := true }, wl.snd)
  else none

/-- The dispatch layers `keyHandler` tries, in order. -/
inductive Stage
  | media
  | navbar
  | move
deriving DecidableEq

/-- Everything one key delivery produces: the new window state, the
external effects, the logs, whether the event was consumed (`keyHandler`
returned nil), and which dispatch layers were attempted, in order. -/
structure KeyOut where
  window : Window
  effects : List Effect
  logs : List LogMsg
  consumed : Bool
  stages : List Stage

/-- `Window.keyHandler` (via `eventHandler`): try `mediaCtrl`, then
`navBarCtrl`, then `moveCtrl`; the first layer that matches consumes the
event, otherwise the event is passed on to the focused screen. -/
def Window.keyHandler (w : Window) (kb : KeyBinds) (key : Key) : KeyOut :=
  match w.mediaCtrl kb.global key with
  | some effs => ⟨w, effs, [], true, [Stage.media]⟩
  | none =>
    match w.navBarCtrl kb.navBar key with
    | some (w', effs, logs) => ⟨w', effs, logs, true, [Stage.media, Stage.navbar]⟩
    | none =>
      match w.moveCtrl key with
      | some (w', logs) => ⟨w', [], logs, true, [Stage.media, Stage.navbar, Stage.move]⟩
      | none => ⟨w, [], [], false, [Stage.media, Stage.navbar, Stage.move]⟩

/-- Whether the key is one of the configured global playback keys. -/
abbrev GlobalBinds.isPlaybackKey (g : GlobalBinds) (key : Key) : Prop :=
  key = g.stop ∨ key = g.playPause ∨ key = g.volumeDown ∨ key = g.volumeUp ∨
  key = g.next ∨ key = g.previous ∨ key = g.forward ∨ key = g.backward

/-- The `Help` modal's page state: `page` starts at the Go zero value 0
and `NewHelp` sets `totalPages = 3`. -/
structure Help where
  page : Int
  totalPages : Int
deriving DecidableEq

/-- `NewHelp`: the freshly constructed help modal. -/
def NewHelp : Help :=
  { page := 0, totalPages := 3 }

/-- `Help.InputHandler`: Escape closes, Left decrements the page only
when `page > 0`, Right increments only when `page < totalPages-1`, and
every other key is delegated to the text view. -/
def Help.inputKey (h : Help) (key : Key) : Help :=
  if key = keyEscape then h
  else if key = keyLeft then
    if h.page > 0 then { h with page := h.page - 1 } else h
  else if key = keyRight then
    if h.page < h.totalPages - 1 then { h with page := h.page + 1 } else h
  else h

/-- The player-state snapshot carried on the update channel (the fields
beyond the position are irrelevant to the claims). -/
structure PlayingState where
  position : Int
deriving DecidableEq

/-- The `ui.Gui` bridge state: the stored last snapshot and how many
redraws have been scheduled through `gui.Update`. -/
structure GuiState where
  lastState : Option PlayingState
  draws : Nat
deriving DecidableEq

/-- What the `select` in `Gui.loop` can receive. -/
inductive GuiEvent
  | stopSignal
  | stateMsg (s : PlayingState)
deriving DecidableEq

/-- One iteration of `Gui.loop`'s `for { select { ... } }`. The stop arm
executes `break`; Go's `break` terminates the innermost `for`, `switch`
or `select` statement, so inside the `select` it only exits the
`select` and the enclosing `for` keeps iterating. The state arm swaps
the snapshot under the lock and schedules a redraw. Neither arm returns
from the loop, hence the exit flag (second component) is `false` in
both. -/
def loopIter (g : GuiState) (e : GuiEvent) : GuiState × Bool :=
  match e with
  | GuiEvent.stopSignal => (g, false)
  | GuiEvent.stateMsg s => ({ lastState := some s, draws := g.draws + 1 }, false)

/-- Run `Gui.loop` over a finite trace of channel deliveries: because no
iteration sets the exit flag, the loop consumes the whole trace. -/
def loopRun (g : GuiState) (events : List GuiEvent) : GuiState :=
  events.foldl (fun g e => (loopIter g e).fst) g

/-- `Gui.updateState`: the scheduled redraw callback reads the stored
snapshot under the read lock and hands it to the progress widget. -/
def updateState (g : GuiState) : Option PlayingState :=
  g.lastState

/-! Concrete states and collaborators used to instantiate the theorems. -/

/-- A concrete artist-list widget state. -/
def sampleArtistListS : ArtistListState :=
  { artists := [], text := "", pagingEnabled := true, page := DefaultPaging }

/-- A concrete album-list widget state. -/
def sampleAlbumListS : AlbumListState :=
  { albums := [], text := "", pagingEnabled := true, similarEnabled := true,
    artistMode := false, artist := none, page := DefaultPaging }

/-- A concrete window: the artist list is the current media view, no
modal is open, no back pointers are set. -/
def sampleW : Window where
  mediaView := Screen.artistList
  prev := fun _ => none
  focus := some (Focus.screen Screen.artistList)
  lastFocus := none
  mediaViewSelected := true
  hasModal := false
  modalW := none
  layoutModal := none
  visibleM := fun _ => false
  artistListS := sampleArtistListS
  albumListS := sampleAlbumListS
  similarAlbumsS := sampleAlbumListS
  latestAlbumsS := sampleAlbumListS
  favoriteAlbumsS := sampleAlbumListS
  albumS := { album := none, songs := [], artist := none }
  playlistsS := []
  playlistS := none
  songsS := { songs := [], page := DefaultPaging, title := "", showPage := SongsPageKind.allSongs }
  genresS := { genres := [], page := DefaultPaging }
  searchS := []
  navCounts := fun _ => none
  volume := 50

/-- The sample window with an open help modal. -/
def sampleWModal : Window :=
  { sampleW with hasModal := true, modalW := some MW.help }

/-- A collaborator whose every fetch fails. -/
def errFetcher : Fetcher where
  getLatestAlbums := ⟨[], some "fetch failed"⟩
  getFavoriteArtists := ⟨[], some "fetch failed"⟩
  getPlaylists := ⟨[], some "fetch failed"⟩
  getSongs := fun _ _ => ⟨([], 0), some "fetch failed"⟩
  getRecentlyPlayed := fun _ => ⟨([], 0), some "fetch failed"⟩
  getArtists := fun _ => ⟨([], 0), some "fetch failed"⟩
  getAlbumArtists := fun _ => ⟨([], 0), some "fetch failed"⟩
  getAlbums := fun _ => ⟨([], 0), some "fetch failed"⟩
  getFavoriteAlbums := fun _ => ⟨([], 0), some "fetch failed"⟩
  getGenres := fun _ => ⟨([], 0), some "fetch failed"⟩
  getGenreAlbums := fun _ => ⟨[], some "fetch failed"⟩
  getArtistAlbums := fun _ => ⟨[], some "fetch failed"⟩
  getAlbumSongs := fun _ => ⟨[], some "fetch failed"⟩
  getAlbumArtist := fun _ =>
    ⟨{ id := "", name := "", totalDuration := 0, albumCount := 0, favorite := false },
      some "fetch failed"⟩
  getPlaylistSongs := fun _ => ⟨[], some "fetch failed"⟩
  search := fun _ _ => ⟨[], some "fetch failed"⟩

/-- A collaborator whose every fetch succeeds with an empty result. -/
def okFetcher : Fetcher where
  getLatestAlbums := ⟨[], none⟩
  getFavoriteArtists := ⟨[], none⟩
  getPlaylists := ⟨[], none⟩
  getSongs := fun _ _ => ⟨([], 0), none⟩
  getRecentlyPlayed := fun _ => ⟨([], 0), none⟩
  getArtists := fun _ => ⟨([], 0), none⟩
  getAlbumArtists := fun _ => ⟨([], 0), none⟩
  getAlbums := fun _ => ⟨([], 0), none⟩
  getFavoriteAlbums := fun _ => ⟨([], 0), none⟩
  getGenres := fun _ => ⟨([], 0), none⟩
  getGenreAlbums := fun _ => ⟨[], none⟩
  getArtistAlbums := fun _ => ⟨[], none⟩
  getAlbumSongs := fun _ => ⟨[], none⟩
  getAlbumArtist := fun _ =>
    ⟨{ id := "", name := "", totalDuration := 0, albumCount := 0, favorite := false }, none⟩
  getPlaylistSongs := fun _ => ⟨[], none⟩
  search := fun _ _ => ⟨[], none⟩

/-- Concrete key bindings with pairwise distinct keys. -/
def sampleKeyBinds : KeyBinds where
  global :=
    { stop := 1, playPause := 2, volumeDown := 3, volumeUp := 4,
      next := 5, previous := 6, forward := 7, backward := 8 }
  navBar := { quit := 11, help := 12, search := 13, queue := 14, history := 15 }

/-! Claim C10. -/

/-- C10: calling `setViewWidget` with the screen that is already the
current media view is a complete no-op for both values of
`updatePrevious`: the layout, focus, `lastFocus`, `mediaView` and every
screen's back pointer are returned unchanged. -/
theorem c10_setViewWidget_same_view_noop (w : Window) (p : Screen) (u : Bool)
    (h : p = w.mediaView) : w.setViewWidget p u = w := by
  simp [Window.setViewWidget, h]

/-- Witness for C10 at a concrete window. -/
theorem c10_witness :
    Screen.artistList = sampleW.mediaView ∧
      sampleW.setViewWidget Screen.artistList true = sampleW :=
  ⟨rfl, c10_setViewWidget_same_view_noop sampleW Screen.artistList true rfl⟩

/-! Claim C3. -/

/-- C3: showing a modal while one is already active is a logged no-op
(the window state, including `hasModal`, the modal reference, focus,
`lastFocus` and the layout, is returned unchanged), and closing a modal
when none is active is likewise a logged no-op. -/
theorem c3_modal_rejects_are_noops (w : Window) (m : MW) (h wd : Nat) (l : Bool) :
    (w.hasModal = true →
      w.showModal m h wd l =
        (w, ["Trying show close modal when there's another modal open."])) ∧
    (w.hasModal = false →
      w.closeModal m = (w, ["Trying to close modal when there's no open modal."])) := by
  constructor
  · intro hm
    simp [Window.showModal, hm]
  · intro hm
    simp [Window.closeModal, hm]

/-- Witness for C3: a double show on a window with an open modal and a
close on a window with no modal, both at concrete states. -/
theorem c3_witness :
    sampleWModal.hasModal = true ∧
      sampleWModal.showModal MW.message 25 50 true =
        (sampleWModal, ["Trying show close modal when there's another modal open."]) ∧
      sampleW.hasModal = false ∧
      sampleW.closeModal MW.help =
        (sampleW, ["Trying to close modal when there's no open modal."]) :=
  ⟨rfl, (c3_modal_rejects_are_noops sampleWModal MW.message 25 50 true).1 rfl, rfl,
    (c3_modal_rejects_are_noops sampleW MW.help 25 50 true).2 rfl⟩

/-! Claim C9. -/

/-- The help-page invariant is preserved by one key event. -/
lemma help_inputKey_inv (h : Help) (k : Key)
    (hh : 0 ≤ h.page ∧ h.page < h.totalPages ∧ h.totalPages = 3) :
    0 ≤ (h.inputKey k).page ∧ (h.inputKey k).page < (h.inputKey k).totalPages ∧
      (h.inputKey k).totalPages = 3 := by
  obtain ⟨h0, h1, h2⟩ := hh
  simp only [Help.inputKey]
  split_ifs <;> simp_all <;> omega

/-- The help-page invariant is preserved by any sequence of key events. -/
lemma help_foldl_inv (keys : List Key) (h : Help)
    (hh : 0 ≤ h.page ∧ h.page < h.totalPages ∧ h.totalPages = 3) :
    0 ≤ (keys.foldl Help.inputKey h).page ∧
      (keys.foldl Help.inputKey h).page < (keys.foldl Help.inputKey h).totalPages ∧
      (keys.foldl Help.inputKey h).totalPages = 3 := by
  induction keys generalizing h with
  | nil => exact hh
  | cons k ks ih => exact ih _ (help_inputKey_inv h k hh)

/-- C9: starting from the freshly constructed help modal (page 0,
3 pages), no sequence of key events can drive the page index out of
`[0, 3)`; moreover Left decrements only when `page > 0` and Right
increments only when `page < totalPages - 1`. -/
theorem c9_help_page_in_range (keys : List Key) :
    (0 ≤ (keys.foldl Help.inputKey NewHelp).page ∧
      (keys.foldl Help.inputKey NewHelp).page < 3) ∧
    (∀ h : Help, (h.inputKey keyLeft).page =
      if h.page > 0 then h.page - 1 else h.page) ∧
    (∀ h : Help, (h.inputKey keyRight).page =
      if h.page < h.totalPages - 1 then h.page + 1 else h.page) := by
  refine ⟨?_, ?_, ?_⟩
  · have h := help_foldl_inv keys NewHelp (by refine ⟨le_refl 0, ?_, rfl⟩; decide)
    exact ⟨h.1, h.2.2 ▸ h.2.1⟩
  · intro h
    simp only [Help.inputKey]
    split_ifs <;> simp_all [keyLeft, keyRight, keyEscape]
  · intro h
    simp only [Help.inputKey]
    split_ifs <;> simp_all [keyLeft, keyRight, keyEscape]

/-! Claim C5. -/

/-- C5: the `break` in the stop arm of `Gui.loop` terminates only the
`select`, not the `for`: the stop iteration does not exit the loop, and
a state message delivered after the stop signal is still processed by a
further iteration (the claim that the loop returns with no further
iterations is violated by the code). -/
theorem c5_loop_ignores_stop (g : GuiState) (s : PlayingState) :
    (loopIter g GuiEvent.stopSignal).snd = false ∧
      (loopRun g [GuiEvent.stopSignal, GuiEvent.stateMsg s]).lastState = some s :=
  ⟨rfl, rfl⟩

/-! Claim C6. -/

/-- After a trace ending in the update `u`, the stored snapshot is `u`. -/
lemma loopRun_lastState_append (us : List PlayingState) (u : PlayingState)
    (g : GuiState) :
    (loopRun g ((us ++ [u]).map GuiEvent.stateMsg)).lastState = some u := by
  induction us generalizing g with
  | nil => rfl
  | cons v vs ih => exact ih { lastState := some v, draws := g.draws + 1 }

/-- Every processed update schedules exactly one redraw. -/
lemma loopRun_draws (us : List PlayingState) (g : GuiState) :
    (loopRun g (us.map GuiEvent.stateMsg)).draws = g.draws + us.length := by
  induction us generalizing g with
  | nil => rfl
  | cons v vs ih =>
    have h : (loopRun { lastState := some v, draws := g.draws + 1 }
        (vs.map GuiEvent.stateMsg)).draws = (g.draws + 1) + vs.length :=
      ih { lastState := some v, draws := g.draws + 1 }
    calc (loopRun g ((v :: vs).map GuiEvent.stateMsg)).draws
        = (loopRun { lastState := some v, draws := g.draws + 1 }
            (vs.map GuiEvent.stateMsg)).draws := rfl
      _ = (g.draws + 1) + vs.length := h
      _ = g.draws + (v :: vs).length := by simp; omega

/-- C6: the bridge replaces the snapshot wholesale on every update and
schedules one redraw per update; after a finite sequence of updates the
redraw callback reads exactly the last update (pos 10, 12, 15 settle to
15). -/
theorem c6_last_update_wins (g : GuiState) (us : List PlayingState) (u : PlayingState) :
    (updateState (loopRun g ((us ++ [u]).map GuiEvent.stateMsg)) = some u ∧
      (loopRun g ((us ++ [u]).map GuiEvent.stateMsg)).draws = g.draws + (us.length + 1)) ∧
    updateState (loopRun g
      ([GuiEvent.stateMsg ⟨10⟩, GuiEvent.stateMsg ⟨12⟩, GuiEvent.stateMsg ⟨15⟩])) =
      some ⟨15⟩ := by
  refine ⟨⟨loopRun_lastState_append us u g, ?_⟩, rfl⟩
  have h := loopRun_draws (us ++ [u]) g
  simpa using h

/-! Claim C4. -/

/-- A global playback key always takes one of the `mediaCtrl` switch
branches. -/
lemma mediaCtrl_isSome_of_playback (w : Window) (g : GlobalBinds) (key : Key)
    (h : g.isPlaybackKey key) : ∃ effs, w.mediaCtrl g key = some effs := by
  unfold Window.mediaCtrl
  split_ifs with h1 h2 h3 h4 h5 h6 h7 h8
  any_goals exact ⟨_, rfl⟩
  exact absurd h (by simp [GlobalBinds.isPlaybackKey, h1, h2, h3, h4, h5, h6, h7, h8])

/-- C4: a key matching any configured global playback key is handled by
`mediaCtrl` alone, in every window state: the event is consumed, no
navigation-bar or move dispatch is attempted, the window state is
untouched, and the emitted effects are exactly the `mediaCtrl` player
commands; the volume keys emit the asynchronous (fire-and-forget)
set-volume command. -/
theorem c4_playback_keys_intercepted_first (kb : KeyBinds) (w : Window) (key : Key)
    (h : kb.global.isPlaybackKey key) :
    (w.keyHandler kb key).stages = [Stage.media] ∧
    (w.keyHandler kb key).consumed = true ∧
    (w.keyHandler kb key).window = w ∧
    w.mediaCtrl kb.global key = some ((w.keyHandler kb key).effects) ∧
    (key = kb.global.volumeUp → key ≠ kb.global.stop → key ≠ kb.global.playPause →
      key ≠ kb.global.volumeDown →
      (w.keyHandler kb key).effects = [Effect.playerSetVolumeAsync (w.volume + 5)] ∧
      ∀ e ∈ (w.keyHandler kb key).effects, e.isAsync = true) ∧
    (key = kb.global.volumeDown → key ≠ kb.global.stop → key ≠ kb.global.playPause →
      (w.keyHandler kb key).effects = [Effect.playerSetVolumeAsync (w.volume - 5)] ∧
      ∀ e ∈ (w.keyHandler kb key).effects, e.isAsync = true) := by
  obtain ⟨effs, he⟩ := mediaCtrl_isSome_of_playback w kb.global key h
  have hk : w.keyHandler kb key = ⟨w, effs, [], true, [Stage.media]⟩ := by
    unfold Window.keyHandler
    rw [he]
  rw [hk]
  refine ⟨rfl, rfl, rfl, by rw [he], ?_, ?_⟩
  · intro h1 h2 h3 h4
    unfold Window.mediaCtrl at he
    rw [if_neg h2, if_neg h3, if_neg h4, if_pos h1] at he
    obtain rfl := Option.some.inj he
    exact ⟨rfl, by simp [Effect.isAsync]⟩
  · intro h1 h2 h3
    unfold Window.mediaCtrl at he
    rw [if_neg h2, if_neg h3, if_pos h1] at he
    obtain rfl := Option.some.inj he
    exact ⟨rfl, by simp [Effect.isAsync]⟩

/-- Witness for C4: the volume-up key under concrete bindings. -/
theorem c4_witness :
    sampleKeyBinds.global.isPlaybackKey 4 ∧
      (sampleW.keyHandler sampleKeyBinds 4).stages = [Stage.media] ∧
      (sampleW.keyHandler sampleKeyBinds 4).consumed = true ∧
      (sampleW.keyHandler sampleKeyBinds 4).effects =
        [Effect.playerSetVolumeAsync (sampleW.volume + 5)] := by
  have h := c4_playback_keys_intercepted_first sampleKeyBinds sampleW 4 (by decide)
  have h5 := h.2.2.2.2.1 (by decide) (by decide) (by decide) (by decide)
  exact ⟨by decide, h.1, h.2.1, h5.1⟩

/-! Claim C8. -/

/-- The contribution of one item type to the aggregated search results:
its items when the fetch succeeds with a non-empty slice, nothing
otherwise. -/
def searchHit (f : Fetcher) (q : String) (t : ItemType) :
    Option (ItemType × List Item) :=
  match (f.search t q).err with
  | none =>
    if (f.search t q).val.length > 0 then some (t, (f.search t q).val) else none
  | some _ => none

/-- The log line one item type contributes: only fetch errors log. -/
def searchErrLog (f : Fetcher) (q : String) (t : ItemType) : Option LogMsg :=
  match (f.search t q).err with
  | some e => some ("search items of type " ++ t.goName ++ ": " ++ e)
  | none => none

/-- One `searchStep` appends exactly the type's hit to the results. -/
lemma searchStep_window (f : Fetcher) (q : String) (o : SearchOut) (t : ItemType) :
    (searchStep f q o t).window =
      { o.window with searchS := o.window.searchS ++ (searchHit f q t).toList } := by
  unfold searchStep searchHit
  rcases he : (f.search t q).err with _ | e <;> simp [he]
  split_ifs <;> simp

/-- One `searchStep` appends exactly the type's error log line. -/
lemma searchStep_logs (f : Fetcher) (q : String) (o : SearchOut) (t : ItemType) :
    (searchStep f q o t).logs = o.logs ++ (searchErrLog f q t).toList := by
  unfold searchStep searchErrLog
  rcases he : (f.search t q).err with _ | e <;> simp [he]
  split_ifs <;> simp

/-- One `searchStep` performs exactly one fetch. -/
lemma searchStep_effs (f : Fetcher) (q : String) (o : SearchOut) (t : ItemType) :
    (searchStep f q o t).effs = o.effs ++ [Effect.searchFetch t q] := by
  unfold searchStep
  rcases he : (f.search t q).err with _ | e <;> simp [he]
  split_ifs <;> simp

/-- Folding `searchStep` over the configured types accumulates the hits,
the error logs, and one fetch per type. -/
lemma searchCb_foldl (f : Fetcher) (q : String) (types : List ItemType)
    (o : SearchOut) :
    (types.foldl (searchStep f q) o).window =
      { o.window with
        searchS := o.window.searchS ++ types.filterMap (searchHit f q) } ∧
    (types.foldl (searchStep f q) o).logs =
      o.logs ++ types.filterMap (searchErrLog f q) ∧
    (types.foldl (searchStep f q) o).effs =
      o.effs ++ types.map (fun t => Effect.searchFetch t q) := by
  induction types generalizing o with
  | nil => refine ⟨?_, by simp, by simp⟩; simp
  | cons t ts ih =>
    obtain ⟨ihw, ihl, ihe⟩ := ih (searchStep f q o t)
    refine ⟨?_, ?_, ?_⟩
    · rw [List.foldl_cons, ihw, searchStep_window]
      rcases h : searchHit f q t with _ | hit <;>
        simp [List.filterMap_cons, h, List.append_assoc]
    · rw [List.foldl_cons, ihl, searchStep_logs]
      rcases h : searchErrLog f q t with _ | l <;>
        simp [List.filterMap_cons, h, List.append_assoc]
    · rw [List.foldl_cons, ihe, searchStep_effs]
      simp [List.append_assoc]

/-- C8: one search submission performs exactly one fetch per configured
searchable type, logs exactly the errors, and the aggregated results
screen holds exactly the non-empty successful results, in order; the
rest of the window is untouched. In particular, with types A and B where
A errors and B returns three items, only B's three items appear. -/
theorem c8_search_aggregates_successes (f : Fetcher) (types : List ItemType)
    (w : Window) (q : String) :
    ((w.searchCb f types q).window =
        { w with searchS := types.filterMap (searchHit f q) } ∧
      (w.searchCb f types q).logs =
        "In search callback" :: types.filterMap (searchErrLog f q) ∧
      (w.searchCb f types q).effs =
        types.map (fun t => Effect.searchFetch t q)) ∧
    (∀ (e : Err) (i1 i2 i3 : Item) (f0 : Fetcher),
      (Window.searchCb
        { f0 with search := fun t _ =>
            if t = ItemType.artist then ⟨[], some e⟩ else ⟨[i1, i2, i3], none⟩ }
        [ItemType.artist, ItemType.album] w q).window.searchS =
        [(ItemType.album, [i1, i2, i3])]) := by
  constructor
  · obtain ⟨hw, hl, he⟩ := searchCb_foldl f q types
      ⟨{ w with searchS := [] }, ["In search callback"], []⟩
    unfold Window.searchCb
    rw [hw, hl, he]
    exact ⟨by simp, by simp, by simp⟩
  · intro e i1 i2 i3 f0
    rfl

/-! Claim C2. -/

/-- `setViewWidget` with `updatePrevious` on a screen that is not
current, written out. -/
lemma setViewWidget_true_of_ne (w : Window) (p : Screen)
    (h : p ≠ w.mediaView) :
    w.setViewWidget p true =
      { w with
        lastFocus := w.focus
        focus := some (Focus.screen p)
        mediaView := p
        prev := fun s => if s = p then some w.mediaView else w.prev s } := by
  simp [Window.setViewWidget, h]

/-- `setViewWidget` without `updatePrevious` on a screen that is not
current: the back pointers are untouched. -/
lemma setViewWidget_false_of_ne (w : Window) (p : Screen)
    (h : p ≠ w.mediaView) :
    w.setViewWidget p false =
      { w with
        lastFocus := w.focus
        focus := some (Focus.screen p)
        mediaView := p } := by
  simp [Window.setViewWidget, h]

/-- A sequence of drill-down navigations: each pushes its target with
`updatePrevious = true`. -/
def drills (w : Window) (ts : List Screen) : Window :=
  ts.foldl (fun w t => w.setViewWidget t true) w

/-- `n` back operations in a row. -/
def backN (n : Nat) (w : Window) : Window :=
  Window.backOp^[n] w

/-- The round trip works when the drill targets are pairwise distinct
and the first differs from the starting screen; the back pointers of
untargeted screens are untouched. -/
lemma drills_backN :
    ∀ (ts : List Screen) (w : Window), ts.Nodup →
      ts.head? ≠ some w.mediaView →
      (backN ts.length (drills w ts)).mediaView = w.mediaView ∧
        ∀ s, s ∉ ts → (backN ts.length (drills w ts)).prev s = w.prev s := by
  intro ts
  induction ts with
  | nil => exact fun w _ _ => ⟨rfl, fun s _ => rfl⟩
  | cons t rest ih =>
    intro w hnd hhd
    have ht : t ≠ w.mediaView := by
      simpa using hhd
    have htnr : t ∉ rest := (List.nodup_cons.mp hnd).1
    have hndr : rest.Nodup := (List.nodup_cons.mp hnd).2
    have hsv := setViewWidget_true_of_ne w t ht
    have hw1me : (w.setViewWidget t true).mediaView = t := by rw [hsv]
    have hw1pt : (w.setViewWidget t true).prev t = some w.mediaView := by
      rw [hsv]
      simp
    have hw1po : ∀ s, s ≠ t → (w.setViewWidget t true).prev s = w.prev s := by
      intro s hs
      rw [hsv]
      simp [hs]
    have hhd2 : rest.head? ≠ some (w.setViewWidget t true).mediaView := by
      cases rest with
      | nil => simp
      | cons r rs =>
        simp only [List.head?_cons, hw1me, ne_eq, Option.some.injEq]
        intro hc
        exact htnr (hc ▸ List.mem_cons_self r rs)
    obtain ⟨ihm, ihp⟩ := ih (w.setViewWidget t true) hndr hhd2
    have hMme :
        (backN rest.length (drills (w.setViewWidget t true) rest)).mediaView = t := by
      rw [ihm, hw1me]
    have hMpt :
        (backN rest.length (drills (w.setViewWidget t true) rest)).prev t =
          some w.mediaView := by
      rw [ihp t htnr, hw1pt]
    have hback : Window.backOp (backN rest.length (drills (w.setViewWidget t true) rest)) =
        (backN rest.length (drills (w.setViewWidget t true) rest)).setViewWidget
          w.mediaView false := by
      unfold Window.backOp
      rw [hMme, hMpt]
      rfl
    have hne2 : w.mediaView ≠
        (backN rest.length (drills (w.setViewWidget t true) rest)).mediaView := by
      rw [hMme]
      exact fun hc => ht hc.symm
    have hstep : backN (t :: rest).length (drills w (t :: rest)) =
        (backN rest.length (drills (w.setViewWidget t true) rest)).setViewWidget
          w.mediaView false := by
      show Window.backOp^[rest.length + 1]
        (drills (w.setViewWidget t true) rest) = _
      rw [Function.iterate_succ_apply']
      exact hback
    have hsv2 := setViewWidget_false_of_ne _ w.mediaView hne2
    constructor
    · rw [hstep, hsv2]
    · intro s hs
      have hst : s ≠ t := fun hc => hs (hc ▸ List.mem_cons_self t rest)
      have hsr : s ∉ rest := fun hc => hs (List.mem_cons_of_mem t hc)
      rw [hstep, hsv2]
      show (backN rest.length (drills (w.setViewWidget t true) rest)).prev s = w.prev s
      rw [ihp s hsr, hw1po s hst]

/-- C2 (amended): a sequence of `n` drill-down navigations followed by
`n` back operations returns to the starting screen provided the drill
targets are pairwise distinct and the first target differs from the
starting screen. Because screens are pre-allocated and shared, a
repeated target overwrites the earlier back pointer and the round trip
can end elsewhere (see the counterexample). -/
theorem c2_drill_back_roundtrip_nodup (w : Window) (ts : List Screen)
    (h1 : ts.Nodup) (h2 : ts.head? ≠ some w.mediaView) :
    (backN ts.length (drills w ts)).mediaView = w.mediaView :=
  (drills_backN ts w h1 h2).1

/-- Witness for C2 at a concrete two-step drill. -/
theorem c2_witness :
    ([Screen.albumList, Screen.album] : List Screen).Nodup ∧
      ([Screen.albumList, Screen.album] : List Screen).head? ≠
        some sampleW.mediaView ∧
      (backN 2 (drills sampleW [Screen.albumList, Screen.album])).mediaView =
        sampleW.mediaView :=
  ⟨by decide, by decide,
    c2_drill_back_roundtrip_nodup sampleW [Screen.albumList, Screen.album]
      (by decide) (by decide)⟩

/-- Counterexample for C2 as stated: drilling artist list → album list →
album view → album list (a revisit of the shared album-list screen, each
push setting the pushed screen's back pointer to the screen current just
before it) and then going back three times ends on the album view, not
on the starting artist list. -/
theorem c2_counterexample :
    (drills sampleW [Screen.albumList, Screen.album, Screen.albumList]).prev
        Screen.albumList = some Screen.album ∧
      (drills sampleW [Screen.albumList, Screen.album, Screen.albumList]).prev
        Screen.album = some Screen.albumList ∧
      (backN 3 (drills sampleW
        [Screen.albumList, Screen.album, Screen.albumList])).mediaView =
        Screen.album ∧
      Screen.album ≠ sampleW.mediaView := by
  refine ⟨rfl, rfl, ?_, by decide⟩
  rfl

/-! Claim C7. -/

/-- The screen `selectMedia` pushes for each media-bar category. -/
def MediaSelect.targetScreen : MediaSelect → Screen
  | MediaSelect.latestMusic => Screen.latestAlbums
  | MediaSelect.recent => Screen.songs
  | MediaSelect.artists => Screen.artistList
  | MediaSelect.albumArtists => Screen.artistList
  | MediaSelect.albums => Screen.albumList
  | MediaSelect.songs => Screen.songs
  | MediaSelect.playlists => Screen.playlists
  | MediaSelect.favoriteArtists => Screen.artistList
  | MediaSelect.favoriteAlbums => Screen.favoriteAlbums
  | MediaSelect.genres => Screen.genres

/-- The fetch a given `selectMedia` case performs succeeded. -/
def selectMediaFetchOk (f : Fetcher) : MediaSelect → Prop
  | MediaSelect.latestMusic => f.getLatestAlbums.err = none
  | MediaSelect.recent => (f.getRecentlyPlayed DefaultPaging).err = none
  | MediaSelect.artists => (f.getArtists DefaultPaging).err = none
  | MediaSelect.albumArtists => (f.getAlbumArtists DefaultPaging).err = none
  | MediaSelect.albums => (f.getAlbums DefaultPaging).err = none
  | MediaSelect.songs => (f.getSongs 0 DefaultPaging.pageSize).err = none
  | MediaSelect.playlists => f.getPlaylists.err = none
  | MediaSelect.favoriteArtists => f.getFavoriteArtists.err = none
  | MediaSelect.favoriteAlbums =>
    (f.getFavoriteAlbums { DefaultPaging with pageSize := 200 }).err = none
  | MediaSelect.genres => (f.getGenres DefaultPaging).err = none

/-- C7 (amended): every successful media-bar category selection pushes
its target screen with `updatePrevious = true`, so the target screen's
back pointer is set to the prior current screen even though a category
switch is lateral, not a drill-down (`selectMedia` never passes
`false`). -/
theorem c7_category_switch_sets_previous (f : Fetcher) (w : Window)
    (m : MediaSelect) (lim : Bool) (hok : selectMediaFetchOk f m)
    (hne : m.targetScreen ≠ w.mediaView) :
    ((w.selectMedia f m lim).fst).mediaView = m.targetScreen ∧
      ((w.selectMedia f m lim).fst).prev m.targetScreen = some w.mediaView := by
  cases m with
  | latestMusic =>
    rcases hf : f.getLatestAlbums with ⟨val, err⟩
    rw [selectMediaFetchOk, hf] at hok
    rw [MediaSelect.targetScreen] at hne
    obtain rfl : err = none := hok
    simp [Window.selectMedia, hf, Window.setViewWidget, Window.setCount,
      MediaSelect.targetScreen, hne]
  | favoriteArtists =>
    rcases hf : f.getFavoriteArtists with ⟨val, err⟩
    rw [selectMediaFetchOk, hf] at hok
    rw [MediaSelect.targetScreen] at hne
    obtain rfl : err = none := hok
    simp [Window.selectMedia, hf, Window.setViewWidget, Window.setCount,
      MediaSelect.targetScreen, hne]
  | playlists =>
    rcases hf : f.getPlaylists with ⟨val, err⟩
    rw [selectMediaFetchOk, hf] at hok
    rw [MediaSelect.targetScreen] at hne
    obtain rfl : err = none := hok
    simp [Window.selectMedia, hf, Window.setViewWidget, Window.setCount,
      MediaSelect.targetScreen, hne]
  | songs =>
    rcases hf : f.getSongs 0 DefaultPaging.pageSize with ⟨val, err⟩
    rw [selectMediaFetchOk, hf] at hok
    rw [MediaSelect.targetScreen] at hne
    obtain rfl : err = none := hok
    simp [Window.selectMedia, hf, Window.setViewWidget, Window.setCount,
      MediaSelect.targetScreen, hne]
  | recent =>
    rcases hf : f.getRecentlyPlayed DefaultPaging with ⟨val, err⟩
    rw [selectMediaFetchOk, hf] at hok
    rw [MediaSelect.targetScreen] at hne
    obtain rfl : err = none := hok
    cases lim <;>
      simp [Window.selectMedia, hf, Window.setViewWidget, Window.setCount,
        MediaSelect.targetScreen, hne]
  | artists =>
    rcases hf : f.getArtists DefaultPaging with ⟨val, err⟩
    rw [selectMediaFetchOk, hf] at hok
    rw [MediaSelect.targetScreen] at hne
    obtain rfl : err = none := hok
    simp [Window.selectMedia, hf, Window.setViewWidget, Window.setCount,
      MediaSelect.targetScreen, hne]
  | albumArtists =>
    rcases hf : f.getAlbumArtists DefaultPaging with ⟨val, err⟩
    rw [selectMediaFetchOk, hf] at hok
    rw [MediaSelect.targetScreen] at hne
    obtain rfl : err = none := hok
    simp [Window.selectMedia, hf, Window.setViewWidget, Window.setCount,
      MediaSelect.targetScreen, hne]
  | albums =>
    rcases hf : f.getAlbums DefaultPaging with ⟨val, err⟩
    rw [selectMediaFetchOk, hf] at hok
    rw [MediaSelect.targetScreen] at hne
    obtain rfl : err = none := hok
    simp [Window.selectMedia, hf, Window.setViewWidget, Window.setCount,
      MediaSelect.targetScreen, hne]
  | favoriteAlbums =>
    rcases hf : f.getFavoriteAlbums { DefaultPaging with pageSize := 200 } with ⟨val, err⟩
    rw [selectMediaFetchOk, hf] at hok
    rw [MediaSelect.targetScreen] at hne
    obtain rfl : err = none := hok
    simp [Window.selectMedia, hf, Window.setViewWidget, Window.setCount,
      MediaSelect.targetScreen, hne]
  | genres =>
    rcases hf : f.getGenres DefaultPaging with ⟨val, err⟩
    rw [selectMediaFetchOk, hf] at hok
    rw [MediaSelect.targetScreen] at hne
    obtain rfl : err = none := hok
    simp [Window.selectMedia, Window.showGenrePage, hf, Window.setViewWidget,
      Window.setCount, MediaSelect.targetScreen, hne]

/-- Witness for C7 at a concrete category selection. -/
theorem c7_witness :
    selectMediaFetchOk okFetcher MediaSelect.playlists ∧
      MediaSelect.playlists.targetScreen ≠ sampleW.mediaView ∧
      ((sampleW.selectMedia okFetcher MediaSelect.playlists false).fst).mediaView =
        MediaSelect.playlists.targetScreen ∧
      ((sampleW.selectMedia okFetcher MediaSelect.playlists false).fst).prev
        MediaSelect.playlists.targetScreen = some sampleW.mediaView := by
  have h := c7_category_switch_sets_previous okFetcher sampleW MediaSelect.playlists
    false rfl (by decide)
  exact ⟨rfl, by decide, h.1, h.2⟩

/-- Counterexample for C7 as stated: selecting the Playlists media-bar
category (a lateral category switch) with a successful fetch changes the
playlists screen's back pointer from `none` to the prior current
screen. -/
theorem c7_counterexample :
    sampleW.prev Screen.playlists = none ∧
      ((sampleW.selectMedia okFetcher MediaSelect.playlists false).fst).prev
          Screen.playlists = some Screen.artistList := by
  exact ⟨rfl, by decide⟩

/-! Claim C1. -/

/-- C1 (amended): how each fetch-driven navigation handles a fetch
error. The category selections for latest music, favorite artists,
playlists, artists, album artists and genres, the artist / playlist /
genre drill-downs, the album drill-down on a song-fetch error, and the
artist / album / genre page selections all log the error and abort with
the window unchanged. The exceptions: (i) the Songs and Recently-played
category selections and the song page selections log but still apply
the returned (typically empty) song slice and navigate to the songs
screen; (ii) the Albums / Favorite-albums category selections toggle
the album list's paging flag before checking the error and then abort;
(iii) an album drill-down whose song fetch succeeds but whose
album-artist fetch fails logs and still navigates with the fetched
songs, keeping the stale artist. -/
theorem c1_fetch_error_handling :
    (∀ (f : Fetcher) (w : Window) (artist : Artist) (vs : List Album) (e : Err),
      w.selectArtist { f with getArtistAlbums := fun _ => ⟨vs, some e⟩ } artist =
        (w, ["get albumList albums: " ++ e])) ∧
    (∀ (f : Fetcher) (w : Window) (album : Album) (vs : List Song) (e : Err),
      w.selectAlbum { f with getAlbumSongs := fun _ => ⟨vs, some e⟩ } album =
        (w, ["get album songs: " ++ e])) ∧
    (∀ (f : Fetcher) (w : Window) (pl : Playlist) (vs : List Song) (e : Err),
      w.selectPlaylist { f with getPlaylistSongs := fun _ => ⟨vs, some e⟩ } pl =
        (w, ["did not get playlist songs: " ++ e])) ∧
    (∀ (f : Fetcher) (w : Window) (id : IdName) (vs : List Album) (e : Err),
      w.selectGenre { f with getGenreAlbums := fun _ => ⟨vs, some e⟩ } id =
        (w, ["get genre albums: " ++ e])) ∧
    (∀ (f : Fetcher) (w : Window) (page : Paging) (vs : List Artist) (n : Nat) (e : Err),
      w.showArtistPage { f with getArtists := fun _ => ⟨(vs, n), some e⟩ } page =
        (w, ["get albumList page: " ++ e])) ∧
    (∀ (f : Fetcher) (w : Window) (page : Paging) (vs : List Album) (n : Nat) (e : Err),
      w.showAlbumPage { f with getAlbums := fun _ => ⟨(vs, n), some e⟩ } page =
        (w, ["get all albums: " ++ e])) ∧
    (∀ (f : Fetcher) (w : Window) (page : Paging) (vs : List IdName) (n : Nat) (e : Err),
      w.showGenrePage { f with getGenres := fun _ => ⟨(vs, n), some e⟩ } page =
        (w, ["get genres: " ++ e])) ∧
    (∀ (f : Fetcher) (w : Window) (lim : Bool) (vs : List Album) (e : Err),
      w.selectMedia { f with getLatestAlbums := ⟨vs, some e⟩ }
        MediaSelect.latestMusic lim = (w, ["get favorite artists: " ++ e])) ∧
    (∀ (f : Fetcher) (w : Window) (lim : Bool) (vs : List Artist) (e : Err),
      w.selectMedia { f with getFavoriteArtists := ⟨vs, some e⟩ }
        MediaSelect.favoriteArtists lim = (w, ["get favorite artists: " ++ e])) ∧
    (∀ (f : Fetcher) (w : Window) (lim : Bool) (vs : List Playlist) (e : Err),
      w.selectMedia { f with getPlaylists := ⟨vs, some e⟩ }
        MediaSelect.playlists lim = (w, ["get playlists: " ++ e])) ∧
    (∀ (f : Fetcher) (w : Window) (lim : Bool) (vs : List Artist) (n : Nat) (e : Err),
      w.selectMedia { f with getArtists := fun _ => ⟨(vs, n), some e⟩ }
        MediaSelect.artists lim = (w, ["get all artists: " ++ e])) ∧
    (∀ (f : Fetcher) (w : Window) (lim : Bool) (vs : List Artist) (n : Nat) (e : Err),
      w.selectMedia { f with getAlbumArtists := fun _ => ⟨(vs, n), some e⟩ }
        MediaSelect.albumArtists lim = (w, ["get all artists: " ++ e])) ∧
    (∀ (f : Fetcher) (w : Window) (lim : Bool) (vs : List IdName) (n : Nat) (e : Err),
      w.selectMedia { f with getGenres := fun _ => ⟨(vs, n), some e⟩ }
        MediaSelect.genres lim = (w, ["get genres: " ++ e])) ∧
    (∀ (f : Fetcher) (w : Window) (lim : Bool) (vs : List Song) (n : Nat) (e : Err),
      w.selectMedia { f with getSongs := fun _ _ => ⟨(vs, n), some e⟩ }
        MediaSelect.songs lim =
        (({ w with songsS := w.songsS.setSongs vs (DefaultPaging.setTotalItems n)
          }).setViewWidget Screen.songs true, ["get songs: " ++ e])) ∧
    (∀ (f : Fetcher) (w : Window) (lim : Bool) (vs : List Song) (n : Nat) (e : Err),
      w.selectMedia { f with getRecentlyPlayed := fun _ => ⟨(vs, n), some e⟩ }
        MediaSelect.recent lim =
        (({ w with songsS := w.songsS.setSongs vs (DefaultPaging.setTotalItems n)
          }).setViewWidget Screen.songs true, ["get songs: " ++ e])) ∧
    (∀ (f : Fetcher) (w : Window) (page : Paging) (vs : List Song) (n : Nat) (e : Err),
      w.selectSongs { f with getSongs := fun _ _ => ⟨(vs, n), some e⟩ } page =
        (({ w with songsS := w.songsS.setSongs vs page }).setViewWidget
          Screen.songs true, ["get songs: " ++ e])) ∧
    (∀ (f : Fetcher) (w : Window) (page : Paging) (vs : List Song) (n : Nat) (e : Err),
      w.showRecentSongsPage { f with getRecentlyPlayed := fun _ => ⟨(vs, n), some e⟩ }
        page =
        (({ w with songsS := w.songsS.setSongs vs page }).setViewWidget
          Screen.songs true, ["get songs: " ++ e])) ∧
    (∀ (f : Fetcher) (w : Window) (lim : Bool) (vs : List Album) (n : Nat) (e : Err),
      w.selectMedia { f with getAlbums := fun _ => ⟨(vs, n), some e⟩ }
        MediaSelect.albums lim =
        ({ w with albumListS := w.albumListS.enablePaging true },
          ["get All Albums: " ++ e])) ∧
    (∀ (f : Fetcher) (w : Window) (lim : Bool) (vs : List Album) (n : Nat) (e : Err),
      w.selectMedia { f with getFavoriteAlbums := fun _ => ⟨(vs, n), some e⟩ }
        MediaSelect.favoriteAlbums lim =
        ({ w with albumListS := w.albumListS.enablePaging false },
          ["get Favorite albums: " ++ e])) ∧
    (∀ (f : Fetcher) (w : Window) (album : Album) (vs : List Song) (ar : Artist) (e : Err),
      w.selectAlbum
        { f with
            getAlbumSongs := fun _ => ⟨vs, none⟩
            getAlbumArtist := fun _ => ⟨ar, some e⟩ } album =
        (({ w with
            albumS := { w.albumS with
              album := some album
              songs := vs.map (fun (s : Song) => { s with albumArtist := album.artist }) }
            prev := fun s =>
              if s = Screen.album then some w.mediaView else w.prev s
          }).setViewWidget Screen.album true,
          ["get album artist: " ++ e])) := by
  refine ⟨?_, ?_, ?_, ?_, ?_, ?_, ?_, ?_, ?_, ?_, ?_, ?_, ?_, ?_, ?_, ?_, ?_, ?_,
    ?_, ?_⟩ <;> (intros; rfl)

/-- Counterexample for C1 as stated: a song-page navigation whose fetch
errors still navigates — the media view changes from the artist list to
the songs screen instead of staying put. -/
theorem c1_counterexample :
    (errFetcher.getSongs DefaultPaging.currentPage DefaultPaging.pageSize).err =
        some "fetch failed" ∧
      sampleW.mediaView = Screen.artistList ∧
      ((sampleW.selectSongs errFetcher DefaultPaging).fst).mediaView = Screen.songs ∧
      ((sampleW.selectSongs errFetcher DefaultPaging).fst).mediaView ≠
        sampleW.mediaView := by
  refine ⟨rfl, rfl, ?_, by decide⟩
  rfl

end Jellycli
